import Mathlib

/-!
# Verification of the QMP computer-use agent (`tools/qmp-agent/qmp_agent.py`)

A shallow embedding of the agent's data model and operations:

* `J` — JSON-like values (the frames, events and payloads the agent builds).
* `KEY_SCANCODES`, `make_key_event`, `make_mouse_move_event`,
  `make_mouse_button_event` — the pure event encoders.
* `QMPConnection`-level `connExecute` — one command/response exchange over an
  explicit stream of incoming frames.
* `QMPAgent` state (`AgentState`) with `get_connection`, `send_key`,
  `send_mouse` — modelled as state-passing functions that also return a trace
  of externally visible transport actions (`Action`), parameterised by the set
  of existing socket paths and by oracles deciding whether a `connect` or an
  `execute` call raises.
* `do_POST` — the HTTP handler's routing and error mapping.
* A lock-scope model of `get_connection` for the concurrency structure.
-/

namespace QmpAgent

/-- JSON-like values, sufficient for the frames and event payloads the agent
builds and receives.  Numbers are modelled as integers (all numeric payloads
in the agent are integral). -/
inductive J where
  | null : J
  | bool (b : Bool) : J
  | num (n : Int) : J
  | str (s : String) : J
  | arr (elems : List J) : J
  | obj (fields : List (String × J)) : J

/-- Errors raised by the agent's operations, mirroring the Python exceptions:
`FileNotFoundError` from `get_connection`, `ValueError("Unknown key: …")` from
`make_key_event`, `RuntimeError` from a failed handshake in
`QMPConnection.connect`, and `ConnectionError`/socket errors from the
transport. -/
inductive AgentErr where
  | socketNotFound (msg : String) : AgentErr
  | unknownKey (key : String) : AgentErr
  | handshakeFailed (path : String) : AgentErr
  | transportClosed : AgentErr
deriving DecidableEq, Repr

/-- The static name → scancode table (PS/2 set 1 make codes), transcribed from
`KEY_SCANCODES` in the source. -/
def KEY_SCANCODES : List (String × Nat) := [
  ("esc", 0x01), ("1", 0x02), ("2", 0x03), ("3", 0x04), ("4", 0x05),
  ("5", 0x06), ("6", 0x07), ("7", 0x08), ("8", 0x09), ("9", 0x0A),
  ("0", 0x0B), ("minus", 0x0C), ("equal", 0x0D), ("backspace", 0x0E),
  ("tab", 0x0F), ("q", 0x10), ("w", 0x11), ("e", 0x12), ("r", 0x13),
  ("t", 0x14), ("y", 0x15), ("u", 0x16), ("i", 0x17), ("o", 0x18),
  ("p", 0x19), ("bracketleft", 0x1A), ("bracketright", 0x1B),
  ("ret", 0x1C), ("enter", 0x1C), ("ctrl", 0x1D),
  ("a", 0x1E), ("s", 0x1F), ("d", 0x20), ("f", 0x21), ("g", 0x22),
  ("h", 0x23), ("j", 0x24), ("k", 0x25), ("l", 0x26),
  ("semicolon", 0x27), ("apostrophe", 0x28), ("grave", 0x29),
  ("shift", 0x2A), ("lshift", 0x2A), ("backslash", 0x2B),
  ("z", 0x2C), ("x", 0x2D), ("c", 0x2E), ("v", 0x2F), ("b", 0x30),
  ("n", 0x31), ("m", 0x32), ("comma", 0x33), ("dot", 0x34),
  ("slash", 0x35), ("rshift", 0x36), ("alt", 0x38), ("lalt", 0x38),
  ("space", 0x39), ("capslock", 0x3A),
  ("f1", 0x3B), ("f2", 0x3C), ("f3", 0x3D), ("f4", 0x3E),
  ("f5", 0x3F), ("f6", 0x40), ("f7", 0x41), ("f8", 0x42),
  ("f9", 0x43), ("f10", 0x44), ("f11", 0x57), ("f12", 0x58),
  ("up", 0x48), ("down", 0x50), ("left", 0x4B), ("right", 0x4D),
  ("insert", 0x52), ("delete", 0x53), ("home", 0x47), ("end", 0x4F),
  ("pageup", 0x49), ("pagedown", 0x51)]

/-- Python's `str.lower()`;  the key names involved are ASCII, where Python's
lowering agrees with per-character ASCII lowering.  (Defined by structural
recursion over the character list so that it reduces definitionally.) -/
def pyLower (s : String) : String := ⟨s.data.map Char.toLower⟩

/-- The numeric value of one digit character in the given base, or `none` if
the character is not a digit of that base.  Bases used: 2, 8, 10, 16. -/
def charDigit (base : Nat) (c : Char) : Option Nat :=
  let v : Option Nat :=
    if '0' ≤ c ∧ c ≤ '9' then some (c.toNat - '0'.toNat)
    else if 'a' ≤ c ∧ c ≤ 'f' then some (c.toNat - 'a'.toNat + 10)
    else if 'A' ≤ c ∧ c ≤ 'F' then some (c.toNat - 'A'.toNat + 10)
    else none
  match v with
  | some d => if d < base then some d else none
  | none => none

/-- Digits of `base` with Python's underscore rule (an underscore must sit
between two digits), accumulating into `acc`; consumes the whole list. -/
def digitsRest (base : Nat) (acc : Nat) : List Char → Option Nat
  | [] => some acc
  | '_' :: c :: cs =>
    match charDigit base c with
    | some d => digitsRest base (acc * base + d) cs
    | none => none
  | ['_'] => none
  | c :: cs =>
    match charDigit base c with
    | some d => digitsRest base (acc * base + d) cs
    | none => none

/-- A nonempty digit string of `base` under Python's underscore rule.  When
`afterBase` is true (a `0x`/`0o`/`0b` prefix precedes) a single leading
underscore is also allowed, as in Python's `int("0x_1c", 0)`. -/
def parseDigits (base : Nat) (afterBase : Bool) : List Char → Option Nat
  | [] => none
  | '_' :: c :: cs =>
    if afterBase then
      match charDigit base c with
      | some d => digitsRest base d cs
      | none => none
    else none
  | ['_'] => none
  | c :: cs =>
    match charDigit base c with
    | some d => digitsRest base d cs
    | none => none

/-- Python whitespace stripped by `int(s, base)`. -/
def isPySpace (c : Char) : Bool :=
  c = ' ' ∨ c = '\t' ∨ c = '\n' ∨ c = '\r' ∨ c = '\x0b' ∨ c = '\x0c'

/-- The unsigned part of Python's `int(s, 0)`:  a `0x`/`0o`/`0b` prefixed
number, or a decimal number whose first digit is `0` only when the value is
zero (Python rejects decimal literals with leading zeros in base 0). -/
def pyIntBody : List Char → Option Nat
  | '0' :: x :: cs =>
    if x = 'x' ∨ x = 'X' then parseDigits 16 true cs
    else if x = 'o' ∨ x = 'O' then parseDigits 8 true cs
    else if x = 'b' ∨ x = 'B' then parseDigits 2 true cs
    else
      match parseDigits 10 false ('0' :: x :: cs) with
      | some 0 => some 0
      | some _ => none
      | none => none
  | cs => parseDigits 10 false cs

/-- Python's `int(s, 0)`:  optional surrounding whitespace, optional sign,
then a base-prefixed or decimal literal;  `none` models `ValueError`.
(ASCII digits only;  Python also accepts Unicode digits, which no caller of
the agent uses.) -/
def pyIntBase0 (s : String) : Option Int :=
  let cs := (s.toList.dropWhile isPySpace).reverse.dropWhile isPySpace |>.reverse
  match cs with
  | '+' :: rest => (pyIntBody rest).map fun n => (n : Int)
  | '-' :: rest => (pyIntBody rest).map fun n => -(n : Int)
  | rest => (pyIntBody rest).map fun n => (n : Int)

/-- The JSON event object `make_key_event` builds for scancode `n`. -/
def keyEventJ (n : Int) (down : Bool) : J :=
  .obj [("type", .str "key"),
        ("data", .obj [("down", .bool down),
                       ("key", .obj [("type", .str "number"), ("data", .num n)])])]

/-- `make_key_event(key, down)`:  case-insensitive table lookup, then raw
scancode via `int(key, 0)`, else `ValueError("Unknown key: …")`. -/
def make_key_event (key : String) (down : Bool) : Except AgentErr J :=
  match KEY_SCANCODES.lookup (pyLower key) with
  | some code => .ok (keyEventJ (code : Int) down)
  | none =>
    match pyIntBase0 key with
    | some n => .ok (keyEventJ n down)
    | none => .error (.unknownKey key)

/-- One absolute-axis event object. -/
def absAxisJ (axis : String) (v : Int) : J :=
  .obj [("type", .str "abs"), ("data", .obj [("axis", .str axis), ("value", .num v)])]

/-- `int((coord / dim) * 32767)` from `make_mouse_move_event`.  Python's
float computation is exact for `|coord| * 32767 < 2 ^ 53` (division by the
power-of-two `dim` is exact, and the product fits the significand), where
`int(…)` is truncation toward zero of the rational `coord * 32767 / dim`,
i.e. `Int.div`. -/
def scaleAbs (coord : Int) (dim : Int) : Int := Int.tdiv (coord * 32767) dim

/-- `make_mouse_move_event(x, y)`:  scales against a fixed 1024×768 logical
space to a 0–32767 device range;  no clamping, truncating division. -/
def make_mouse_move_event (x y : Int) : List J :=
  [absAxisJ "x" (scaleAbs x 1024), absAxisJ "y" (scaleAbs y 768)]

/-- `make_mouse_button_event(button, down)`:  unrecognized names default to
`"left"` via `btn_map.get(button, "left")`. -/
def make_mouse_button_event (button : String) (down : Bool) : J :=
  let btn := if button = "left" ∨ button = "middle" ∨ button = "right" then button else "left"
  .obj [("type", .str "btn"), ("data", .obj [("down", .bool down), ("button", .str btn)])]

/-! ## `QMPConnection.execute` — one command/response exchange

The transport is modelled as an explicit stream: `incoming` is the list of
complete JSON frames that arrive, in order (the `recv`/reassembly loop of
`_recv_json` delivers exactly the next complete frame, or raises
`ConnectionError` when the peer has closed). -/

/-- Python truthiness of a JSON value, as used by `if arguments:` in
`QMPConnection.execute`. -/
def jTruthy : J → Bool
  | .null => false
  | .bool b => b
  | .num n => n ≠ 0
  | .str s => s ≠ ""
  | .arr xs => !xs.isEmpty
  | .obj fs => !fs.isEmpty

/-- The message object `execute` serializes:  `{"execute": command}` plus an
`"arguments"` key only when `arguments` is truthy. -/
def execMsg (command : String) (arguments : Option J) : J :=
  match arguments with
  | some a => if jTruthy a then .obj [("execute", .str command), ("arguments", a)]
              else .obj [("execute", .str command)]
  | none => .obj [("execute", .str command)]

/-- `_recv_json`:  the next complete frame of the stream, or
`ConnectionError("QMP socket closed")` when the stream is exhausted. -/
def recvJson : List J → Except AgentErr (J × List J)
  | [] => .error .transportClosed
  | f :: rest => .ok (f, rest)

/-- `QMPConnection.execute(command, arguments)`:  serializes and transmits one
command object, then performs a single `_recv_json`.  Returns (result with
remaining stream, list of transmitted messages). -/
def connExecute (incoming : List J) (command : String) (arguments : Option J) :
    Except AgentErr (J × List J) × List J :=
  (recvJson incoming, [execMsg command arguments])

/-- Whether a frame carries a reply marker (a top-level `return` or `error`
key).  Used only to state properties; the source's `execute` performs no such
test. -/
def hasReplyMarker : J → Bool
  | .obj fs => (fs.lookup "return").isSome || (fs.lookup "error").isSome
  | _ => false

/-- Modelled from the spec (for comparison with `connExecute`, which is the
source's behavior):  read frames one at a time until one carries a reply
marker, discarding every earlier frame as an asynchronous event. -/
def executeSpecBehavior : List J → Except AgentErr (J × List J)
  | [] => .error .transportClosed
  | f :: rest => if hasReplyMarker f then .ok (f, rest) else executeSpecBehavior rest

/-! ## `QMPAgent` — registry and dispatcher

State-passing model of the `QMPAgent` class.  `fs` is the set of socket paths
that exist, `connectOk` decides whether `QMPConnection.connect` on a path
succeeds (greeting + capability negotiation), and `execFails n` decides
whether the `n`-th `conn.execute` call of the current agent operation raises a
transport error.  Each operation returns its result (or raised error), the
agent state afterwards, and the trace of transport actions it performed. -/

/-- A registry entry:  one `QMPConnection`, identified by its socket path. -/
structure QMPConn where
  socket_path : String
deriving DecidableEq, Repr

/-- The `QMPAgent` state:  socket directory and the instance → connection
map (an association list;  Python dict insertion order). -/
structure AgentState where
  socket_dir : String
  connections : List (String × QMPConn)
deriving DecidableEq, Repr

/-- Externally visible transport actions of an agent operation. -/
inductive Action where
  | connect (path : String) : Action
  | exec (iid : String) (cmd : String) (args : J) : Action

/-- The transport-command actions of a trace (connection attempts excluded). -/
def execActions (tr : List Action) : List Action :=
  tr.filter fun a => match a with
    | .exec _ _ _ => true
    | .connect _ => false

/-- Primary socket path: `<dir>/qmp-<id>.sock`. -/
def sockPathPrimary (dir iid : String) : String := dir ++ "/qmp-" ++ iid ++ ".sock"

/-- Fallback socket path: `<dir>/qmp.sock`. -/
def sockPathFallback (dir : String) : String := dir ++ "/qmp.sock"

/-- The socket-path resolution conditional of `get_connection`:  the primary
per-instance path if it exists, else the shared fallback path if it exists,
else nothing. -/
def resolveSockPath (fs : List String) (dir iid : String) : Option String :=
  if sockPathPrimary dir iid ∈ fs then some (sockPathPrimary dir iid)
  else if sockPathFallback dir ∈ fs then some (sockPathFallback dir)
  else none

/-- `QMPAgent.get_connection(instance_id)`:  cached entry if present, else
resolve the primary then fallback socket path (raising `FileNotFoundError` if
neither exists), construct a `QMPConnection`, connect it (the handshake;  may
raise, in which case nothing is stored), store it and return it. -/
def get_connection (fs : List String) (connectOk : String → Bool)
    (st : AgentState) (iid : String) :
    Except AgentErr QMPConn × AgentState × List Action :=
  match st.connections.lookup iid with
  | some conn => (.ok conn, st, [])
  | none =>
    match resolveSockPath fs st.socket_dir iid with
    | none =>
      (.error (.socketNotFound ("QMP socket not found: " ++ st.socket_dir ++ "/qmp-" ++ iid ++ ".sock")),
       st, [])
    | some p =>
      if connectOk p then
        (.ok ⟨p⟩, ⟨st.socket_dir, st.connections ++ [(iid, ⟨p⟩)]⟩, [Action.connect p])
      else
        (.error (.handshakeFailed p), st, [Action.connect p])

/-- Run a sequence of `conn.execute("input-send-event", args)` calls;  the
`n`-th call (counting from `n0`) raises a transport error when
`execFails n`.  Returns the outcome and the actions performed. -/
def execSeq (execFails : Nat → Bool) (iid : String) :
    List J → Nat → Except AgentErr Unit × List Action
  | [], _ => (.ok (), [])
  | a :: rest, n =>
    if execFails n then (.error .transportClosed, [])
    else
      match execSeq execFails iid rest (n + 1) with
      | (r, tr) => (r, Action.exec iid "input-send-event" a :: tr)

/-- The `{"events": [ev]}` argument object for a single event. -/
def sendEventsArgs (evs : List J) : J := .obj [("events", .arr evs)]

/-- The acknowledgement `{"ok": True, "key": key, "action": action}`. -/
def ackKey (key action : String) : J :=
  .obj [("ok", .bool true), ("key", .str key), ("action", .str action)]

/-- `QMPAgent.send_key(instance_id, key, action)`:  resolve the connection
first;  `tap` builds both events then executes each in order, `press` and
`release` execute one event;  any other action executes nothing.  Returns the
acknowledgement;  errors of `get_connection`, `make_key_event` or the
transport propagate. -/
def send_key (fs : List String) (connectOk : String → Bool) (execFails : Nat → Bool)
    (st : AgentState) (iid key action : String) :
    Except AgentErr J × AgentState × List Action :=
  match get_connection fs connectOk st iid with
  | (.error e, st1, tr) => (.error e, st1, tr)
  | (.ok _, st1, tr) =>
    if action = "tap" then
      match make_key_event key true, make_key_event key false with
      | .ok evDown, .ok evUp =>
        match execSeq execFails iid [sendEventsArgs [evDown], sendEventsArgs [evUp]] 0 with
        | (.error e, tr2) => (.error e, st1, tr ++ tr2)
        | (.ok _, tr2) => (.ok (ackKey key action), st1, tr ++ tr2)
      | .error e, _ => (.error e, st1, tr)
      | _, .error e => (.error e, st1, tr)
    else if action = "press" then
      match make_key_event key true with
      | .error e => (.error e, st1, tr)
      | .ok ev =>
        match execSeq execFails iid [sendEventsArgs [ev]] 0 with
        | (.error e, tr2) => (.error e, st1, tr ++ tr2)
        | (.ok _, tr2) => (.ok (ackKey key action), st1, tr ++ tr2)
    else if action = "release" then
      match make_key_event key false with
      | .error e => (.error e, st1, tr)
      | .ok ev =>
        match execSeq execFails iid [sendEventsArgs [ev]] 0 with
        | (.error e, tr2) => (.error e, st1, tr ++ tr2)
        | (.ok _, tr2) => (.ok (ackKey key action), st1, tr ++ tr2)
    else
      (.ok (ackKey key action), st1, tr)

/-- `None`-aware JSON of an optional integer, for the mouse acknowledgement. -/
def jOfOptInt : Option Int → J
  | some n => .num n
  | none => .null

/-- `None`-aware JSON of an optional string. -/
def jOfOptStr : Option String → J
  | some s => .str s
  | none => .null

/-- The acknowledgement `{"ok": True, "x": x, "y": y, "button": b, "action": a}`. -/
def ackMouse (x y : Option Int) (button : Option String) (action : String) : J :=
  .obj [("ok", .bool true), ("x", jOfOptInt x), ("y", jOfOptInt y),
        ("button", jOfOptStr button), ("action", jOfOptStr (some action))]

/-- Python truthiness of the optional `button` argument (`None` and `""` are
falsy). -/
def buttonTruthy : Option String → Bool
  | some b => b ≠ ""
  | none => false

/-- `QMPAgent.send_mouse(instance_id, x, y, button, action)`:  optional move
(one execute carrying both axis events), then optional button press/release,
`click` expanding to press then release. -/
def send_mouse (fs : List String) (connectOk : String → Bool) (execFails : Nat → Bool)
    (st : AgentState) (iid : String) (x y : Option Int) (button : Option String)
    (action : String) :
    Except AgentErr J × AgentState × List Action :=
  match get_connection fs connectOk st iid with
  | (.error e, st1, tr) => (.error e, st1, tr)
  | (.ok _, st1, tr) =>
    let moveCmds : List J :=
      match x, y with
      | some xv, some yv => [sendEventsArgs (make_mouse_move_event xv yv)]
      | _, _ => []
    let btnCmds : List J :=
      if buttonTruthy button ∧ (action = "click" ∨ action = "press") then
        let b := button.getD ""
        if action = "click" then
          [sendEventsArgs [make_mouse_button_event b true],
           sendEventsArgs [make_mouse_button_event b false]]
        else [sendEventsArgs [make_mouse_button_event b true]]
      else if buttonTruthy button ∧ action = "release" then
        [sendEventsArgs [make_mouse_button_event (button.getD "") false]]
      else []
    match execSeq execFails iid (moveCmds ++ btnCmds) 0 with
    | (.error e, tr2) => (.error e, st1, tr ++ tr2)
    | (.ok _, tr2) => (.ok (ackMouse x y button action), st1, tr ++ tr2)

/-! ## The HTTP handler `QMPHandler.do_POST`

The request is given pre-parsed at the HTTP layer:  `parts` is
`path.strip("/").split("/")`, `contentLength` the `Content-Length` header,
and `parsedBody` the result of `json.loads` on the raw body (`none` for a
body that is not valid JSON).  Crucially, in the source the `json.loads`
call sits *outside* the `try` block, so a parse failure propagates out of
`do_POST` — modelled as `HttpOut.uncaught`:  no response is written. -/

/-- A handler outcome:  either an HTTP response (status, JSON body) or an
exception escaping `do_POST`, in which case no response is produced. -/
inductive HttpOut where
  | resp (status : Nat) (body : J) : HttpOut
  | uncaught (msg : String) : HttpOut

/-- `body.get(k, d)`:  raises `AttributeError` when the parsed body is not an
object. -/
def jFieldD (body : J) (k : String) (d : J) : Except String J :=
  match body with
  | .obj fields => .ok ((fields.lookup k).getD d)
  | _ => .error "AttributeError"

/-- `body.get(k, d)` where the handler then uses the value as a string
(`key`, `action`).  Fields holding a non-string value are modelled as the
exception path;  the claims under study involve string-valued fields only. -/
def jFieldStrD (body : J) (k : String) (d : String) : Except String String :=
  match jFieldD body k (.str d) with
  | .error m => .error m
  | .ok (.str s) => .ok s
  | .ok _ => .error "TypeError"

/-- `body.get(k)` used as an optional coordinate (`x`, `y`):  absent or
`null` is `None`;  a non-numeric value raises in the arithmetic of
`make_mouse_move_event` (`TypeError`), caught by the handler. -/
def jFieldOptInt (body : J) (k : String) : Except String (Option Int) :=
  match body with
  | .obj fields =>
    match fields.lookup k with
    | none => .ok none
    | some .null => .ok none
    | some (.num n) => .ok (some n)
    | some _ => .error "TypeError"
  | _ => .error "AttributeError"

/-- `body.get(k)` used as an optional string (`button`).  Non-string,
non-null values are outside the model. -/
def jFieldOptStr (body : J) (k : String) : Except String (Option String) :=
  match body with
  | .obj fields =>
    match fields.lookup k with
    | none => .ok none
    | some .null => .ok none
    | some (.str s) => .ok (some s)
    | some _ => .error "TypeError"
  | _ => .error "AttributeError"

/-- The `str(e)` text of an agent error, abstracting Python's exception
messages. -/
def errMsg : AgentErr → String
  | .socketNotFound m => m
  | .unknownKey k => "Unknown key: " ++ k
  | .handshakeFailed p => "handshake failed: " ++ p
  | .transportClosed => "QMP socket closed"

/-- `{"error": m}`. -/
def errBody (m : String) : J := .obj [("error", .str m)]

/-- `QMPHandler.do_POST`:  routes `/input/<id>`;  an empty body is `{}` (no
parse), a non-empty body is parsed by `json.loads` *before* the `try` block,
so a malformed body raises out of the handler;  inside the `try`, dispatcher
errors become a 500 response with an `{"error": …}` body;  any other route is
a 404. -/
def do_POST (fs : List String) (connectOk : String → Bool) (execFails : Nat → Bool)
    (st : AgentState) (parts : List String) (contentLength : Nat) (parsedBody : Option J) :
    HttpOut × AgentState × List Action :=
  match parts with
  | "input" :: iid :: _ =>
    let body? : Option J := if contentLength = 0 then some (.obj []) else parsedBody
    match body? with
    | none => (.uncaught "json.decoder.JSONDecodeError", st, [])
    | some body =>
      match jFieldD body "type" (.str "key") with
      | .error m => (.resp 500 (errBody m), st, [])
      | .ok t =>
        match t with
        | .str s =>
          if s = "key" then
            match jFieldStrD body "key" "space", jFieldStrD body "action" "tap" with
            | .ok key, .ok action =>
              (match send_key fs connectOk execFails st iid key action with
               | (.ok r, st2, tr) => (.resp 200 r, st2, tr)
               | (.error e, st2, tr) => (.resp 500 (errBody (errMsg e)), st2, tr))
            | .error m, _ => (.resp 500 (errBody m), st, [])
            | _, .error m => (.resp 500 (errBody m), st, [])
          else if s = "mouse" then
            match jFieldOptInt body "x", jFieldOptInt body "y",
                  jFieldOptStr body "button", jFieldStrD body "action" "click" with
            | .ok x, .ok y, .ok b, .ok action =>
              (match send_mouse fs connectOk execFails st iid x y b action with
               | (.ok r, st2, tr) => (.resp 200 r, st2, tr)
               | (.error e, st2, tr) => (.resp 500 (errBody (errMsg e)), st2, tr))
            | .error m, _, _, _ => (.resp 500 (errBody m), st, [])
            | _, .error m, _, _ => (.resp 500 (errBody m), st, [])
            | _, _, .error m, _ => (.resp 500 (errBody m), st, [])
            | _, _, _, .error m => (.resp 500 (errBody m), st, [])
          else
            (.resp 200 (errBody ("unknown event type: " ++ s)), st, [])
        | _ => (.resp 200 (errBody "unknown event type"), st, [])
  | _ => (.resp 404 (errBody "not found"), st, [])

/-! ## Lock structure of the registry and connections

A static embedding of which locks each code region holds, read off the
`with …:` blocks of the source, plus a small two-thread blocking test. -/

/-- The agent's locks:  the registry-level `QMPAgent._lock` and each
connection's `QMPConnection._lock`. -/
inductive LockId where
  | registry : LockId
  | connLock (iid : String) : LockId
deriving DecidableEq, Repr

/-- The primitive steps of the connection-management code. -/
inductive CStep where
  | checkCache : CStep
  | resolvePath : CStep
  | connectHandshake : CStep
  | storeConn : CStep
  | execSendRecv : CStep
deriving DecidableEq, Repr

/-- A code region:  a primitive step, sequencing, or a `with lock:` block. -/
inductive LProg where
  | prim (s : CStep) : LProg
  | seq (a b : LProg) : LProg
  | withLock (l : LockId) (body : LProg) : LProg

/-- The lock structure of `QMPAgent.get_connection`:  the whole body — cache
check, path resolution, the blocking `conn.connect()` handshake, and the
store — runs inside `with self._lock:` (the registry lock). -/
def get_connection_prog : LProg :=
  .withLock .registry
    (.seq (.prim .checkCache)
      (.seq (.prim .resolvePath)
        (.seq (.prim .connectHandshake) (.prim .storeConn))))

/-- The lock structure of `QMPConnection.execute`:  send and receive run
inside the connection's own lock only. -/
def execute_prog (iid : String) : LProg :=
  .withLock (.connLock iid) (.prim .execSendRecv)

/-- Each primitive step of a region paired with the locks held while it
runs. -/
def stepsWithLocks : LProg → List LockId → List (CStep × List LockId)
  | .prim s, held => [(s, held)]
  | .seq a b, held => stepsWithLocks a held ++ stepsWithLocks b held
  | .withLock l b, held => stepsWithLocks b (held ++ [l])

/-- The lock sets held at each occurrence of step `s` in region `p`. -/
def locksHeldDuring (p : LProg) (s : CStep) : List (List LockId) :=
  ((stepsWithLocks p []).filter fun q => q.1 = s).map fun q => q.2

/-- Thread-level instructions:  lock acquisition and release around work. -/
inductive LInstr where
  | acquire (l : LockId) : LInstr
  | release (l : LockId) : LInstr
  | work (s : CStep) : LInstr
deriving DecidableEq, Repr

/-- Flatten a region into the instruction sequence a thread executes. -/
def lcompile : LProg → List LInstr
  | .prim s => [.work s]
  | .seq a b => lcompile a ++ lcompile b
  | .withLock l b => .acquire l :: (lcompile b ++ [.release l])

/-- The locks a thread owns after executing its first `k` instructions. -/
def ownedAfter (is : List LInstr) (k : Nat) : List LockId :=
  (is.take k).foldl
    (fun owned i =>
      match i with
      | .acquire l => owned ++ [l]
      | .release l => owned.erase l
      | .work _ => owned) []

/-- Whether a thread whose remaining instructions are given can take its next
step while another thread owns `othersHold`:  acquiring a lock the other
thread owns blocks;  everything else proceeds. -/
def canRun (othersHold : List LockId) : List LInstr → Bool
  | [] => false
  | .acquire l :: _ => !othersHold.contains l
  | .release _ :: _ => true
  | .work _ :: _ => true

/-! ## Shared lemmas -/

/-- `get_connection` performs no transport-command action:  its trace holds at
most a connection attempt. -/
theorem get_connection_trace_no_exec (fs : List String) (cOk : String → Bool)
    (st : AgentState) (iid : String) :
    execActions (get_connection fs cOk st iid).2.2 = [] := by
  unfold get_connection
  split
  · rfl
  · split
    · rfl
    · split <;> rfl

/-! ## Claims -/

/-- C3 (counterexample):  with an asynchronous event frame arriving before
the reply frame, `execute` returns the event frame — which carries no reply
marker — to the caller;  the behavior the claim describes would skip it and
return the reply frame. -/
theorem C3_counterexample :
    (connExecute [J.obj [("event", .str "VNC_CONNECTED")], J.obj [("return", .obj [])]]
        "query-status" none).1
      = .ok (J.obj [("event", .str "VNC_CONNECTED")], [J.obj [("return", .obj [])]]) ∧
    hasReplyMarker (J.obj [("event", .str "VNC_CONNECTED")]) = false ∧
    executeSpecBehavior [J.obj [("event", .str "VNC_CONNECTED")], J.obj [("return", .obj [])]]
      = .ok (J.obj [("return", .obj [])], []) :=
  ⟨rfl, rfl, rfl⟩

/-- C3 (amended):  `execute` serializes and transmits the one command object
and then returns the *first* complete frame received, without inspecting it
for a reply marker;  frames lacking `return`/`error` are not discarded but
returned to the caller, and an exhausted stream raises the transport error. -/
theorem C3_amended (f : J) (rest : List J) (cmd : String) (args : Option J) :
    connExecute (f :: rest) cmd args = (.ok (f, rest), [execMsg cmd args]) ∧
    connExecute [] cmd args = (.error .transportClosed, [execMsg cmd args]) :=
  ⟨rfl, rfl⟩

/-- C4 (counterexample):  the out-of-range logical input x = 2048 is not
clamped:  the emitted device x-axis value is 65534, outside [0, 32767]. -/
theorem C4_counterexample :
    make_mouse_move_event 2048 0 = [absAxisJ "x" 65534, absAxisJ "y" 0] ∧
    ¬((65534 : Int) ≤ 32767) :=
  ⟨rfl, by decide⟩

/-- C4 (amended):  mouse-move encoding performs no clamping and truncates
(toward zero) rather than rounds:  the emitted values are exactly
`(coord × 32767) tdiv logicalDimension`;  for inputs inside the logical space
[0, 1024] × [0, 768] both device values lie in [0, 32767], while out-of-range
inputs produce out-of-range outputs. -/
theorem C4_amended (x y : Int) (hx0 : 0 ≤ x) (hx1 : x ≤ 1024) (hy0 : 0 ≤ y) (hy1 : y ≤ 768) :
    make_mouse_move_event x y =
      [absAxisJ "x" (Int.tdiv (x * 32767) 1024), absAxisJ "y" (Int.tdiv (y * 32767) 768)] ∧
    0 ≤ Int.tdiv (x * 32767) 1024 ∧ Int.tdiv (x * 32767) 1024 ≤ 32767 ∧
    0 ≤ Int.tdiv (y * 32767) 768 ∧ Int.tdiv (y * 32767) 768 ≤ 32767 := by
  refine ⟨rfl, ?_, ?_, ?_, ?_⟩ <;>
    rw [Int.tdiv_eq_ediv (by positivity) (by positivity)] <;> omega

/-- Witness for C4 (amended) at the spec's own scenario:  logical (512, 384)
scales to device (16383, 16383). -/
theorem C4_amended_witness :
    make_mouse_move_event 512 384 =
      [absAxisJ "x" (Int.tdiv (512 * 32767) 1024), absAxisJ "y" (Int.tdiv (384 * 32767) 768)] ∧
    0 ≤ Int.tdiv (512 * 32767 : Int) 1024 ∧ Int.tdiv (512 * 32767 : Int) 1024 ≤ 32767 ∧
    0 ≤ Int.tdiv (384 * 32767 : Int) 768 ∧ Int.tdiv (384 * 32767 : Int) 768 ≤ 32767 :=
  C4_amended 512 384 (by decide) (by decide) (by decide) (by decide)

/-- C5:  `get_connection` on an uncached instance;  if neither the primary
path `<dir>/qmp-<id>.sock` nor the fallback `<dir>/qmp.sock` exists it fails
with the socket-not-found error and leaves the registry map unchanged;  if a
path resolves (primary first, else fallback) and the connect handshake
succeeds, a new connection on that path is constructed, connected, stored and
returned. -/
theorem C5_get_connection_resolution (fs : List String) (cOk : String → Bool)
    (st : AgentState) (iid : String)
    (hnc : st.connections.lookup iid = none) :
    (sockPathPrimary st.socket_dir iid ∉ fs → sockPathFallback st.socket_dir ∉ fs →
      get_connection fs cOk st iid =
        (.error (.socketNotFound
            ("QMP socket not found: " ++ st.socket_dir ++ "/qmp-" ++ iid ++ ".sock")),
         st, [])) ∧
    (sockPathPrimary st.socket_dir iid ∈ fs → cOk (sockPathPrimary st.socket_dir iid) = true →
      get_connection fs cOk st iid =
        (.ok ⟨sockPathPrimary st.socket_dir iid⟩,
         ⟨st.socket_dir, st.connections ++ [(iid, ⟨sockPathPrimary st.socket_dir iid⟩)]⟩,
         [Action.connect (sockPathPrimary st.socket_dir iid)])) ∧
    (sockPathPrimary st.socket_dir iid ∉ fs → sockPathFallback st.socket_dir ∈ fs →
      cOk (sockPathFallback st.socket_dir) = true →
      get_connection fs cOk st iid =
        (.ok ⟨sockPathFallback st.socket_dir⟩,
         ⟨st.socket_dir, st.connections ++ [(iid, ⟨sockPathFallback st.socket_dir⟩)]⟩,
         [Action.connect (sockPathFallback st.socket_dir)])) := by
  refine ⟨fun h1 h2 => ?_, fun h1 hok => ?_, fun h1 h2 hok => ?_⟩
  · unfold get_connection
    rw [hnc]
    simp [resolveSockPath, h1, h2]
  · unfold get_connection
    rw [hnc]
    simp [resolveSockPath, h1, hok]
  · unfold get_connection
    rw [hnc]
    simp [resolveSockPath, h1, h2, hok]

/-- Witness for C5 at concrete states:  a missing socket leaves the map
empty;  an existing primary socket is connected and cached;  an existing
fallback socket is used when the primary is absent. -/
theorem C5_get_connection_resolution_witness :
    get_connection [] (fun _ => true) ⟨"/tmp", []⟩ "0" =
      (.error (.socketNotFound "QMP socket not found: /tmp/qmp-0.sock"), ⟨"/tmp", []⟩, []) ∧
    get_connection ["/tmp/qmp-0.sock"] (fun _ => true) ⟨"/tmp", []⟩ "0" =
      (.ok ⟨"/tmp/qmp-0.sock"⟩, ⟨"/tmp", [("0", ⟨"/tmp/qmp-0.sock"⟩)]⟩,
       [Action.connect "/tmp/qmp-0.sock"]) ∧
    get_connection ["/tmp/qmp.sock"] (fun _ => true) ⟨"/tmp", []⟩ "0" =
      (.ok ⟨"/tmp/qmp.sock"⟩, ⟨"/tmp", [("0", ⟨"/tmp/qmp.sock"⟩)]⟩,
       [Action.connect "/tmp/qmp.sock"]) :=
  ⟨(C5_get_connection_resolution [] (fun _ => true) ⟨"/tmp", []⟩ "0" rfl).1
      (by decide) (by decide),
   (C5_get_connection_resolution ["/tmp/qmp-0.sock"] (fun _ => true) ⟨"/tmp", []⟩ "0" rfl).2.1
      (by decide) rfl,
   (C5_get_connection_resolution ["/tmp/qmp.sock"] (fun _ => true) ⟨"/tmp", []⟩ "0" rfl).2.2
      (by decide) (by decide) rfl⟩

/-- C6:  key encoding is a case-insensitive lookup in `KEY_SCANCODES`;  a
name absent from the table that `int(name, 0)` parses is used as a raw
scancode;  anything else fails with the unknown-key error;  and "enter" in
any letter case encodes to scancode 28. -/
theorem C6_encode_key (key : String) (down : Bool) :
    (∀ code, KEY_SCANCODES.lookup (pyLower key) = some code →
      make_key_event key down = .ok (keyEventJ (code : Int) down)) ∧
    (∀ n, KEY_SCANCODES.lookup (pyLower key) = none → pyIntBase0 key = some n →
      make_key_event key down = .ok (keyEventJ n down)) ∧
    (KEY_SCANCODES.lookup (pyLower key) = none → pyIntBase0 key = none →
      make_key_event key down = .error (.unknownKey key)) ∧
    make_key_event "enter" down = .ok (keyEventJ 28 down) ∧
    make_key_event "ENTER" down = .ok (keyEventJ 28 down) ∧
    make_key_event "Enter" down = .ok (keyEventJ 28 down) := by
  refine ⟨fun code h => ?_, fun n h1 h2 => ?_, fun h1 h2 => ?_, ?_, ?_, ?_⟩
  · unfold make_key_event
    rw [h]
  · unfold make_key_event
    rw [h1, h2]
  · unfold make_key_event
    rw [h1, h2]
  · unfold make_key_event
    rw [show KEY_SCANCODES.lookup (pyLower "enter") = some 28 from rfl]
    rfl
  · unfold make_key_event
    rw [show KEY_SCANCODES.lookup (pyLower "ENTER") = some 28 from rfl]
    rfl
  · unfold make_key_event
    rw [show KEY_SCANCODES.lookup (pyLower "Enter") = some 28 from rfl]
    rfl

/-- Witness for C6:  the three encoding branches at "enter" (table hit, code
28), "0x1C" (raw scancode parse) and "nosuchkey" (rejected). -/
theorem C6_encode_key_witness :
    make_key_event "enter" true = .ok (keyEventJ ((28 : Nat) : Int) true) ∧
    make_key_event "0x1C" true = .ok (keyEventJ 28 true) ∧
    make_key_event "nosuchkey" true = .error (.unknownKey "nosuchkey") :=
  ⟨(C6_encode_key "enter" true).1 28 rfl,
   (C6_encode_key "0x1C" true).2.1 28 rfl rfl,
   (C6_encode_key "nosuchkey" true).2.2.1 rfl rfl⟩

/-- C1 (counterexample):  instance "0" holds a cached connection and its
first `execute` raises a transport error;  `send_key` propagates the error,
yet the Registry map still holds the same connection afterwards (the state is
unchanged — there is no evict), and the next request returns the cached
broken connection with an empty trace:  no new connection, no fresh
handshake. -/
theorem C1_counterexample :
    send_key [] (fun _ => true) (fun _ => true)
        ⟨"/tmp", [("0", ⟨"/tmp/qmp-0.sock"⟩)]⟩ "0" "a" "tap" =
      (.error .transportClosed, ⟨"/tmp", [("0", ⟨"/tmp/qmp-0.sock"⟩)]⟩, []) ∧
    (AgentState.mk "/tmp" [("0", ⟨"/tmp/qmp-0.sock"⟩)]).connections.lookup "0" =
      some ⟨"/tmp/qmp-0.sock"⟩ ∧
    get_connection [] (fun _ => true) ⟨"/tmp", [("0", ⟨"/tmp/qmp-0.sock"⟩)]⟩ "0" =
      (.ok ⟨"/tmp/qmp-0.sock"⟩, ⟨"/tmp", [("0", ⟨"/tmp/qmp-0.sock"⟩)]⟩, []) :=
  ⟨rfl, rfl, rfl⟩

/-- C1 (amended):  after a transport error on a cached connection, the error
propagates to the caller but the connection is *not* evicted:  the Registry
still maps the instance to the same connection, and the next request to the
same instance returns that cached connection without constructing a new one
or performing a handshake (the agent has no evict operation). -/
theorem C1_amended (fs : List String) (cOk : String → Bool) (execFails : Nat → Bool)
    (st : AgentState) (iid key : String) (conn : QMPConn) (evD evU : J)
    (hc : st.connections.lookup iid = some conn)
    (hd : make_key_event key true = .ok evD) (hu : make_key_event key false = .ok evU)
    (hf : execFails 0 = true) :
    send_key fs cOk execFails st iid key "tap" = (.error .transportClosed, st, []) ∧
    get_connection fs cOk st iid = (.ok conn, st, []) := by
  have hg : get_connection fs cOk st iid = (.ok conn, st, []) := by
    unfold get_connection
    rw [hc]
  refine ⟨?_, hg⟩
  unfold send_key
  rw [hg]
  simp [hd, hu, execSeq, hf]

/-- Witness for C1 (amended) at the concrete broken-connection scenario. -/
theorem C1_amended_witness :
    send_key [] (fun _ => true) (fun _ => true)
        ⟨"/tmp", [("1", ⟨"/tmp/qmp-1.sock"⟩)]⟩ "1" "a" "tap" =
      (.error .transportClosed, ⟨"/tmp", [("1", ⟨"/tmp/qmp-1.sock"⟩)]⟩, []) ∧
    get_connection [] (fun _ => true) ⟨"/tmp", [("1", ⟨"/tmp/qmp-1.sock"⟩)]⟩ "1" =
      (.ok ⟨"/tmp/qmp-1.sock"⟩, ⟨"/tmp", [("1", ⟨"/tmp/qmp-1.sock"⟩)]⟩, []) :=
  C1_amended [] (fun _ => true) (fun _ => true) ⟨"/tmp", [("1", ⟨"/tmp/qmp-1.sock"⟩)]⟩
    "1" "a" ⟨"/tmp/qmp-1.sock"⟩ (keyEventJ 30 true) (keyEventJ 30 false) rfl rfl rfl rfl

/-- C2 (counterexample):  on a not-yet-connected instance whose socket
exists, `send_key` with the rejected key name "nosuchkey" *does* resolve and
create a connection — the handshake runs (`Action.connect` in the trace) and
the new connection is stored in the Registry map — before the encoder error
is raised. -/
theorem C2_counterexample :
    send_key ["/tmp/qmp-0.sock"] (fun _ => true) (fun _ => false)
        ⟨"/tmp", []⟩ "0" "nosuchkey" "tap" =
      (.error (.unknownKey "nosuchkey"),
       ⟨"/tmp", [("0", ⟨"/tmp/qmp-0.sock"⟩)]⟩,
       [Action.connect "/tmp/qmp-0.sock"]) :=
  rfl

/-- C2 (amended):  for a key name the encoder rejects (not in the table, not
parseable as an integer), `send_key` with any of the three recognized actions
fails with the unknown-key error and transmits no input events — but only
after the connection has been resolved (and, if absent, created with its
handshake):  the trace contains no `exec` action, though it may contain the
connection attempt. -/
theorem C2_amended (fs : List String) (cOk : String → Bool) (execFails : Nat → Bool)
    (st : AgentState) (iid key action : String) (conn : QMPConn) (st1 : AgentState)
    (tr0 : List Action)
    (hg : get_connection fs cOk st iid = (.ok conn, st1, tr0))
    (hkd : make_key_event key true = .error (.unknownKey key))
    (hku : make_key_event key false = .error (.unknownKey key))
    (ha : action = "tap" ∨ action = "press" ∨ action = "release") :
    send_key fs cOk execFails st iid key action = (.error (.unknownKey key), st1, tr0) ∧
    execActions tr0 = [] := by
  have hne : execActions tr0 = [] := by
    have h := get_connection_trace_no_exec fs cOk st iid
    rw [hg] at h
    exact h
  refine ⟨?_, hne⟩
  rcases ha with h | h | h <;> subst h <;> unfold send_key <;> rw [hg] <;>
    simp [hkd, hku]

/-- Witness for C2 (amended) at the concrete rejected-key scenario. -/
theorem C2_amended_witness :
    send_key ["/tmp/qmp-2.sock"] (fun _ => true) (fun _ => false)
        ⟨"/tmp", []⟩ "2" "nosuchkey" "tap" =
      (.error (.unknownKey "nosuchkey"),
       ⟨"/tmp", [("2", ⟨"/tmp/qmp-2.sock"⟩)]⟩,
       [Action.connect "/tmp/qmp-2.sock"]) ∧
    execActions [Action.connect "/tmp/qmp-2.sock"] = [] :=
  C2_amended ["/tmp/qmp-2.sock"] (fun _ => true) (fun _ => false) ⟨"/tmp", []⟩
    "2" "nosuchkey" "tap" ⟨"/tmp/qmp-2.sock"⟩ ⟨"/tmp", [("2", ⟨"/tmp/qmp-2.sock"⟩)]⟩
    [Action.connect "/tmp/qmp-2.sock"] rfl rfl rfl (Or.inl rfl)

/-- C7:  with the connection resolved and the key encoding to scancode `c`,
a successful `send_key` with action "tap" transmits exactly one down event
for `c` strictly before exactly one up event for the same `c` and nothing
else, while "press" and "release" each transmit exactly one event (down and
up respectively). -/
theorem C7_send_key_actions (fs : List String) (cOk : String → Bool)
    (st : AgentState) (iid key : String) (c : Int) (conn : QMPConn) (st1 : AgentState)
    (tr0 : List Action)
    (hg : get_connection fs cOk st iid = (.ok conn, st1, tr0))
    (hd : make_key_event key true = .ok (keyEventJ c true))
    (hu : make_key_event key false = .ok (keyEventJ c false)) :
    execActions (send_key fs cOk (fun _ => false) st iid key "tap").2.2 =
      [Action.exec iid "input-send-event" (sendEventsArgs [keyEventJ c true]),
       Action.exec iid "input-send-event" (sendEventsArgs [keyEventJ c false])] ∧
    execActions (send_key fs cOk (fun _ => false) st iid key "press").2.2 =
      [Action.exec iid "input-send-event" (sendEventsArgs [keyEventJ c true])] ∧
    execActions (send_key fs cOk (fun _ => false) st iid key "release").2.2 =
      [Action.exec iid "input-send-event" (sendEventsArgs [keyEventJ c false])] := by
  have hne : execActions tr0 = [] := by
    have h := get_connection_trace_no_exec fs cOk st iid
    rw [hg] at h
    exact h
  simp only [execActions] at hne
  refine ⟨?_, ?_, ?_⟩ <;> unfold send_key <;> rw [hg] <;>
    simp [hd, hu, execSeq, execActions, hne]

/-- Witness for C7 at the spec's own scenario:  key "a" (scancode 30) on a
cached connection. -/
theorem C7_send_key_actions_witness :
    execActions (send_key [] (fun _ => true) (fun _ => false)
        ⟨"/tmp", [("0", ⟨"/tmp/qmp-0.sock"⟩)]⟩ "0" "a" "tap").2.2 =
      [Action.exec "0" "input-send-event" (sendEventsArgs [keyEventJ 30 true]),
       Action.exec "0" "input-send-event" (sendEventsArgs [keyEventJ 30 false])] ∧
    execActions (send_key [] (fun _ => true) (fun _ => false)
        ⟨"/tmp", [("0", ⟨"/tmp/qmp-0.sock"⟩)]⟩ "0" "a" "press").2.2 =
      [Action.exec "0" "input-send-event" (sendEventsArgs [keyEventJ 30 true])] ∧
    execActions (send_key [] (fun _ => true) (fun _ => false)
        ⟨"/tmp", [("0", ⟨"/tmp/qmp-0.sock"⟩)]⟩ "0" "a" "release").2.2 =
      [Action.exec "0" "input-send-event" (sendEventsArgs [keyEventJ 30 false])] :=
  C7_send_key_actions [] (fun _ => true) ⟨"/tmp", [("0", ⟨"/tmp/qmp-0.sock"⟩)]⟩
    "0" "a" 30 ⟨"/tmp/qmp-0.sock"⟩ ⟨"/tmp", [("0", ⟨"/tmp/qmp-0.sock"⟩)]⟩ [] rfl rfl rfl

/-- C10:  with the connection resolved, `send_key` with an action outside
tap/press/release transmits no event, does not raise, and returns the very
same `{ok: true, key, action}` acknowledgement a performed action returns —
indistinguishable from a delivered input. -/
theorem C10_unknown_action_silent_ack (fs : List String) (cOk : String → Bool)
    (ef : Nat → Bool) (st : AgentState) (iid key action : String) (conn : QMPConn)
    (st1 : AgentState) (tr0 : List Action)
    (hg : get_connection fs cOk st iid = (.ok conn, st1, tr0))
    (h1 : action ≠ "tap") (h2 : action ≠ "press") (h3 : action ≠ "release") :
    send_key fs cOk ef st iid key action = (.ok (ackKey key action), st1, tr0) ∧
    execActions tr0 = [] := by
  have hne : execActions tr0 = [] := by
    have h := get_connection_trace_no_exec fs cOk st iid
    rw [hg] at h
    exact h
  refine ⟨?_, hne⟩
  unfold send_key
  rw [hg]
  simp [h1, h2, h3]

/-- Witness for C10 at the concrete action "hold". -/
theorem C10_unknown_action_silent_ack_witness :
    send_key [] (fun _ => true) (fun _ => false)
        ⟨"/tmp", [("0", ⟨"/tmp/qmp-0.sock"⟩)]⟩ "0" "a" "hold" =
      (.ok (ackKey "a" "hold"), ⟨"/tmp", [("0", ⟨"/tmp/qmp-0.sock"⟩)]⟩, []) ∧
    execActions [] = [] :=
  C10_unknown_action_silent_ack [] (fun _ => true) (fun _ => false)
    ⟨"/tmp", [("0", ⟨"/tmp/qmp-0.sock"⟩)]⟩ "0" "a" "hold" ⟨"/tmp/qmp-0.sock"⟩
    ⟨"/tmp", [("0", ⟨"/tmp/qmp-0.sock"⟩)]⟩ [] rfl (by decide) (by decide) (by decide)

/-- C8 (counterexample):  a thread running `get_connection` that has executed
its first three instructions is about to perform the blocking
connect-and-handshake, owns the registry lock at that point, and a second
thread starting `get_connection` for any other instance cannot take even its
first step — it is blocked on the Registry while the first instance is
(re)connecting. -/
theorem C8_counterexample :
    (lcompile get_connection_prog).get? 3 = some (.work .connectHandshake) ∧
    ownedAfter (lcompile get_connection_prog) 3 = [LockId.registry] ∧
    canRun (ownedAfter (lcompile get_connection_prog) 3) (lcompile get_connection_prog) = false :=
  ⟨rfl, rfl, rfl⟩

/-- C8 (amended):  the Registry map does have its own lock, separate from the
per-connection locks — command send/receive runs under only the connection's
lock — but `get_connection` performs the blocking connect and handshake
*while holding* the registry lock, so a request for a different instance that
needs the Registry is blocked for the duration of another instance's
(re)connection. -/
theorem C8_amended :
    locksHeldDuring get_connection_prog .connectHandshake = [[LockId.registry]] ∧
    ∀ iid, locksHeldDuring (execute_prog iid) .execSendRecv = [[LockId.connLock iid]] :=
  ⟨rfl, fun _ => rfl⟩

/-- C9 (counterexample):  a POST to `/input/0` whose non-empty body fails
JSON parsing makes the handler raise (the `json.loads` call sits outside the
`try` block):  the outcome is an escaped exception, which is not an HTTP
response of any status — no client-error response is returned (the Dispatcher
is also never invoked:  the trace is empty). -/
theorem C9_counterexample :
    do_POST [] (fun _ => true) (fun _ => false) ⟨"/tmp", []⟩ ["input", "0"] 17 none =
      (.uncaught "json.decoder.JSONDecodeError", ⟨"/tmp", []⟩, []) ∧
    (∀ status body, HttpOut.uncaught "json.decoder.JSONDecodeError" ≠ HttpOut.resp status body) :=
  ⟨rfl, fun _ _ h => HttpOut.noConfusion h⟩

/-- C9 (amended):  a POST to `/input/<id>` whose non-empty body is not valid
JSON raises an uncaught exception out of the handler — no response at all is
produced and no Dispatcher operation runs;  a Dispatcher or transport error
on the key path yields a server-error response (status 500) whose body is
the structured `{error: <message>}` object;  an unrecognized route yields
the not-found response (status 404). -/
theorem C9_http_error_mapping (fs : List String) (cOk : String → Bool) (ef : Nat → Bool)
    (st : AgentState) :
    (∀ iid rest cl, cl ≠ 0 →
      do_POST fs cOk ef st ("input" :: iid :: rest) cl none =
        (.uncaught "json.decoder.JSONDecodeError", st, [])) ∧
    (∀ iid rest cl body key action e st2 tr, cl ≠ 0 →
      jFieldD body "type" (.str "key") = .ok (.str "key") →
      jFieldStrD body "key" "space" = .ok key →
      jFieldStrD body "action" "tap" = .ok action →
      send_key fs cOk ef st iid key action = (.error e, st2, tr) →
      do_POST fs cOk ef st ("input" :: iid :: rest) cl (some body) =
        (.resp 500 (errBody (errMsg e)), st2, tr)) ∧
    (∀ parts cl pb, (∀ iid rest, parts ≠ "input" :: iid :: rest) →
      do_POST fs cOk ef st parts cl pb = (.resp 404 (errBody "not found"), st, [])) := by
  refine ⟨fun iid rest cl hcl => ?_,
    fun iid rest cl body key action e st2 tr hcl ht hk ha hs => ?_,
    fun parts cl pb hp => ?_⟩
  · unfold do_POST
    simp [hcl]
  · unfold do_POST
    rw [if_neg hcl]
    simp [ht, hk, ha, hs]
  · unfold do_POST
    split
    · exact absurd rfl (hp _ _)
    · rfl

/-- Witness for C9 (amended):  malformed body on `/input/0` escapes;  an
unknown key on `/input/0` yields 500 with `{error: "Unknown key: …"}`;  a
POST to `/status/0` yields 404. -/
theorem C9_http_error_mapping_witness :
    do_POST [] (fun _ => true) (fun _ => false) ⟨"/tmp", [("0", ⟨"/tmp/qmp-0.sock"⟩)]⟩
        ["input", "0"] 2 none =
      (.uncaught "json.decoder.JSONDecodeError", ⟨"/tmp", [("0", ⟨"/tmp/qmp-0.sock"⟩)]⟩, []) ∧
    do_POST [] (fun _ => true) (fun _ => false) ⟨"/tmp", [("0", ⟨"/tmp/qmp-0.sock"⟩)]⟩
        ["input", "0"] 2 (some (.obj [("key", .str "nosuchkey")])) =
      (.resp 500 (errBody (errMsg (.unknownKey "nosuchkey"))),
       ⟨"/tmp", [("0", ⟨"/tmp/qmp-0.sock"⟩)]⟩, []) ∧
    do_POST [] (fun _ => true) (fun _ => false) ⟨"/tmp", [("0", ⟨"/tmp/qmp-0.sock"⟩)]⟩
        ["status", "0"] 0 none =
      (.resp 404 (errBody "not found"), ⟨"/tmp", [("0", ⟨"/tmp/qmp-0.sock"⟩)]⟩, []) :=
  ⟨(C9_http_error_mapping [] (fun _ => true) (fun _ => false)
      ⟨"/tmp", [("0", ⟨"/tmp/qmp-0.sock"⟩)]⟩).1 "0" [] 2 (by decide),
   (C9_http_error_mapping [] (fun _ => true) (fun _ => false)
      ⟨"/tmp", [("0", ⟨"/tmp/qmp-0.sock"⟩)]⟩).2.1 "0" [] 2
      (.obj [("key", .str "nosuchkey")]) "nosuchkey" "tap" (.unknownKey "nosuchkey")
      ⟨"/tmp", [("0", ⟨"/tmp/qmp-0.sock"⟩)]⟩ [] (by decide) rfl rfl rfl rfl,
   (C9_http_error_mapping [] (fun _ => true) (fun _ => false)
      ⟨"/tmp", [("0", ⟨"/tmp/qmp-0.sock"⟩)]⟩).2.2 ["status", "0"] 0 none
      (fun iid rest h => by injection h with h1 h2; exact absurd h1 (by decide))⟩

end QmpAgent
